import Mathlib

/-!
Verification of the Vibecoderz proactive-agent intervention system.

The repository ships two files under `src/`: `api.py` (the FastAPI service
layer, webhook adapters, profile/reset endpoints, and a copy of the
brace-extraction heuristic) and `test_agent.py` (tests). The core module
`proactive_agent.py` (`ProactiveAgent`, `StudentEvent`, the intervention
policy and artifact pipeline) is imported by both but is not part of the
sources; those components are modelled from the specification, and every
such definition is marked `Modelled from the spec:` in its doc comment.
Definitions taken from `api.py` cite the function they embed.
-/

set_option autoImplicit false

namespace VibeAgent

/-! ## JSON values and decoding

`json.loads` is applied to the payload substring both in the modelled
`ArtifactParser` and in `api.py` (`process_student_event`, lines 163-173).
We embed the fragment of JSON the artifacts use: strings, integer numbers,
booleans, null, arrays and objects. -/

/-- A JSON value. Numbers are modelled as integers (the artifact payloads
the pipeline exchanges carry integral `duration_minutes` values only). -/
inductive JVal where
  | jstr (s : String)
  | jnum (n : Int)
  | jbool (b : Bool)
  | jnull
  | jarr (xs : List JVal)
  | jobj (fs : List (String × JVal))

/-- Drop leading JSON whitespace. -/
def skipWs : List Char → List Char
  | c :: cs => if c = ' ' ∨ c = '\n' ∨ c = '\t' ∨ c = '\r' then skipWs cs else c :: cs
  | [] => []

/-- Read the body of a JSON string literal (the opening quote already
consumed), handling the basic escapes, up to the closing quote. -/
def readJStr : List Char → Option (List Char × List Char)
  | [] => none
  | '"' :: rest => some ([], rest)
  | '\\' :: c :: rest =>
    match (match c with
      | '"' => some '"'
      | '\\' => some '\\'
      | '/' => some '/'
      | 'n' => some '\n'
      | 't' => some '\t'
      | 'r' => some '\r'
      | _ => none) with
    | some e =>
      match readJStr rest with
      | some (s, r) => some (e :: s, r)
      | none => none
    | none => none
  | c :: rest =>
    match readJStr rest with
    | some (s, r) => some (c :: s, r)
    | none => none

/-- Accumulate a run of decimal digits into a natural number. -/
def digitsToNat (acc : Nat) : List Char → Nat
  | [] => acc
  | c :: cs => digitsToNat (acc * 10 + (c.toNat - '0'.toNat)) cs

/-- Read a JSON integer (optional leading minus, then digits). -/
def readJNum (s : List Char) : Option (JVal × List Char) :=
  match s with
  | '-' :: rest =>
    match rest.span (·.isDigit) with
    | (ds, r) => if ds = [] then none else some (.jnum (-(digitsToNat 0 ds : Int)), r)
  | _ =>
    match s.span (·.isDigit) with
    | (ds, r) => if ds = [] then none else some (.jnum (digitsToNat 0 ds : Int), r)

mutual

/-- Fuel-bounded recursive-descent reader for a JSON value. -/
def readJVal : Nat → List Char → Option (JVal × List Char)
  | 0, _ => none
  | Nat.succ fuel, s =>
    match skipWs s with
    | '"' :: rest =>
      match readJStr rest with
      | some (str, r) => some (.jstr (String.mk str), r)
      | none => none
    | '[' :: rest =>
      match skipWs rest with
      | ']' :: r => some (.jarr [], r)
      | r2 =>
        match readJItems fuel r2 with
        | some (xs, r) => some (.jarr xs, r)
        | none => none
    | '{' :: rest =>
      match skipWs rest with
      | '}' :: r => some (.jobj [], r)
      | r2 =>
        match readJMembers fuel r2 with
        | some (fs, r) => some (.jobj fs, r)
        | none => none
    | 't' :: 'r' :: 'u' :: 'e' :: r => some (.jbool true, r)
    | 'f' :: 'a' :: 'l' :: 's' :: 'e' :: r => some (.jbool false, r)
    | 'n' :: 'u' :: 'l' :: 'l' :: r => some (.jnull, r)
    | r => readJNum r

/-- Read the `"key": value` members of a JSON object, up to `}`. -/
def readJMembers : Nat → List Char → Option (List (String × JVal) × List Char)
  | 0, _ => none
  | Nat.succ fuel, s =>
    match skipWs s with
    | '"' :: rest =>
      match readJStr rest with
      | some (k, r1) =>
        (match skipWs r1 with
        | ':' :: r2 =>
          match readJVal fuel r2 with
          | some (v, r3) =>
            (match skipWs r3 with
            | ',' :: r4 =>
              match readJMembers fuel r4 with
              | some (ms, r5) => some ((String.mk k, v) :: ms, r5)
              | none => none
            | '}' :: r4 => some ([(String.mk k, v)], r4)
            | _ => none)
          | none => none
        | _ => none)
      | none => none
    | _ => none

/-- Read the comma-separated items of a JSON array, up to `]`. -/
def readJItems : Nat → List Char → Option (List JVal × List Char)
  | 0, _ => none
  | Nat.succ fuel, s =>
    match readJVal fuel s with
    | some (v, r1) =>
      (match skipWs r1 with
      | ',' :: r2 =>
        match readJItems fuel r2 with
        | some (xs, r3) => some (v :: xs, r3)
        | none => none
      | ']' :: r2 => some ([v], r2)
      | _ => none)
    | none => none

end

/-- Decode a whole string as one JSON value, requiring the remainder after
the value to be whitespace only (as `json.loads` does). -/
def jsonLoads (s : String) : Option JVal :=
  match readJVal (s.length + 1) s.toList with
  | some (j, rest) => if skipWs rest = [] then some j else none
  | none => none

/-! ## ArtifactParser

Modelled from the spec: `proactive_agent.py` (which owns `ArtifactParser`)
is not among the sources. §4.4 of the spec describes the extraction
strategy — first opening brace to last closing brace, identical to the
snippet that does survive in `api.py` lines 167-171 — and the validation
rules: `title` must be a non-empty string, `slides` a non-empty ordered
sequence, and a missing `duration_minutes` defaults instead of failing. -/

/-- One slide of a mini-lesson artifact: `{title, body/content: string}`.
Fields absent from the decoded slide object default to the empty string. -/
structure Slide where
  title : String
  content : String
deriving DecidableEq

/-- A validated mini-lesson artifact: title, ordered slides, duration. -/
structure Artifact where
  title : String
  slides : List Slide
  duration_minutes : Int
deriving DecidableEq

/-- Failure modes of artifact parsing (`ArtifactParseError` in the spec):
no payload could be located, the payload is not valid JSON, or the decoded
payload lacks the required shape. -/
inductive ArtifactParseError where
  | noPayload
  | invalidPayload
  | missingTitle
  | emptySlides
  | badSlide
deriving DecidableEq

deriving instance DecidableEq for Except

/-- Index of the first occurrence of `c` (Python `str.find`, `None` for
absent instead of `-1`). -/
def firstIdxOf (c : Char) : List Char → Option Nat
  | [] => none
  | x :: xs => if x = c then some 0 else (firstIdxOf c xs).map (· + 1)

/-- Index of the last occurrence of `c` (Python `str.rfind`, `None` for
absent instead of `-1`). -/
def lastIdxOf (c : Char) (l : List Char) : Option Nat :=
  match firstIdxOf c l.reverse with
  | some i => some (l.length - 1 - i)
  | none => none

/-- Extract the candidate payload: the substring from the first `\x7b` to
the last `\x7d` inclusive (`response_text[start:end]` with
`start = find` and `end = rfind + 1`), `none` when either brace is absent. -/
def extractPayload (s : String) : Option String :=
  match firstIdxOf '{' s.toList, lastIdxOf '}' s.toList with
  | some a, some b => some (String.mk ((s.toList.drop a).take (b + 1 - a)))
  | _, _ => none

/-- Default used when `duration_minutes` is absent from the payload. -/
def defaultDuration : Int := 5

/-- Look up a field of a decoded JSON object by key. -/
def getField (fs : List (String × JVal)) (k : String) : Option JVal :=
  match fs with
  | [] => none
  | (k0, v) :: rest => if k0 = k then some v else getField rest k

/-- The string value of a field, defaulting to `""` when absent or not a
string. -/
def strFieldD (fs : List (String × JVal)) (k : String) : String :=
  match getField fs k with
  | some (.jstr s) => s
  | _ => ""

/-- Decode one slide object; non-object elements are rejected, and the
`title` / `content`-or-`body` fields default to `""` when absent. -/
def decodeSlide : JVal → Option Slide
  | .jobj fs =>
    some { title := strFieldD fs "title",
           content := match getField fs "content" with
             | some (.jstr s) => s
             | _ => strFieldD fs "body" }
  | _ => none

/-- Decode every element of the `slides` array. -/
def decodeSlides : List JVal → Option (List Slide)
  | [] => some []
  | j :: js =>
    match decodeSlide j, decodeSlides js with
    | some s, some ss => some (s :: ss)
    | _, _ => none

/-- Validate a decoded JSON payload into an `Artifact`: `title` must be a
non-empty string, `slides` a non-empty array of slide objects, and
`duration_minutes` defaults to `defaultDuration` when absent. -/
def decodeArtifact : JVal → Except ArtifactParseError Artifact
  | .jobj fs =>
    match getField fs "title" with
    | some (.jstr t) =>
      if t = "" then .error .missingTitle
      else
        match getField fs "slides" with
        | some (.jarr (x :: xs)) =>
          (match decodeSlides (x :: xs) with
          | some sl =>
            .ok { title := t, slides := sl,
                  duration_minutes :=
                    match getField fs "duration_minutes" with
                    | some (.jnum n) => n
                    | _ => defaultDuration }
          | none => .error .badSlide)
        | _ => .error .emptySlides
    | _ => .error .missingTitle
  | _ => .error .invalidPayload

/-- Decode an extracted payload string: JSON-decode then validate. -/
def decodePayload (p : String) : Except ArtifactParseError Artifact :=
  match jsonLoads p with
  | some j => decodeArtifact j
  | none => .error .invalidPayload

/-- Modelled from the spec: `ArtifactParser.parse` (owned by the missing
`proactive_agent.py`). Locate the brace-delimited payload and decode it;
fail with an `ArtifactParseError` when no payload can be located or it
does not decode into the required shape. -/
def parse (raw : String) : Except ArtifactParseError Artifact :=
  match extractPayload raw with
  | some p => decodePayload p
  | none => .error .noPayload

/-! ## Events, user memory and the intervention engine

Modelled from the spec: `StudentEvent`, the per-user memory store, the
`InterventionPolicy` and the `InterventionEngine` all live in the missing
`proactive_agent.py`; they are reconstructed from §3, §4.1, §4.2 and §4.5.
Timestamps are abstract instants (`Nat`); the open-ended metadata mapping
is narrowed to its policy-relevant projection, the quiz score (a rational
standing in for the Python float). -/

/-- Modelled from the spec: one observed learner signal (§3 `Event`).
`event_type` stays a string, as in `api.py`'s `StudentEventRequest`, with
validity a membership check against the known enum. -/
structure StudentEvent where
  user_id : String
  event_type : String
  topic : String
  quiz_score : Option ℚ
  timestamp : Nat
deriving DecidableEq

/-- Modelled from the spec: one persisted struggle entry derived from an
event (§3 `StruggleRecord`). -/
structure StruggleRecord where
  event_type : String
  topic : String
  quiz_score : Option ℚ
  timestamp : Nat
deriving DecidableEq

/-- The struggle record persisted for an event. -/
def toRecord (e : StudentEvent) : StruggleRecord :=
  { event_type := e.event_type, topic := e.topic,
    quiz_score := e.quiz_score, timestamp := e.timestamp }

/-- Modelled from the spec: per-user mutable state (§3 `UserMemory`). -/
structure UserMemory where
  struggle_history : List StruggleRecord
  intervention_count : Nat
  last_intervention_topic : Option String
  last_intervention_at : Option Nat
deriving DecidableEq

/-- The empty memory created lazily on a user's first event. -/
def emptyMemory : UserMemory :=
  { struggle_history := [], intervention_count := 0,
    last_intervention_topic := none, last_intervention_at := none }

/-- The store keyed by `user_id` (`agent.user_memory` in `api.py`),
modelled as an association list. -/
abbrev MemoryStore : Type := List (String × UserMemory)

/-- `agent.user_memory.get(user_id)`: the memory of `u`, if present. -/
def lookupMem : MemoryStore → String → Option UserMemory
  | [], _ => none
  | (k, m) :: rest, u => if k = u then some m else lookupMem rest u

/-- `del agent.user_memory[user_id]`: drop the entry keyed `u`. -/
def eraseMem : MemoryStore → String → MemoryStore
  | [], _ => []
  | (k, m) :: rest, u =>
    if k = u then eraseMem rest u else (k, m) :: eraseMem rest u

/-- Store `m` under key `u`, replacing any previous entry. -/
def setMem : MemoryStore → String → UserMemory → MemoryStore
  | [], u, m => [(u, m)]
  | (k, m0) :: rest, u, m =>
    if k = u then (u, m) :: rest else (k, m0) :: setMem rest u m

/-- Modelled from the spec: `get_or_create` (§4.1), creating empty memory
on first access. -/
def getOrCreate (st : MemoryStore) (u : String) : UserMemory :=
  (lookupMem st u).getD emptyMemory

/-- The struggle history currently recorded for `u`. -/
def memHistory (st : MemoryStore) (u : String) : List StruggleRecord :=
  (getOrCreate st u).struggle_history

/-- The event types of the known enum (§3, and the `event_type` field
description in `api.py`). -/
def knownEventTypes : List String :=
  ["quiz_failure", "help_request", "session_timeout"]

/-- Modelled from the spec: event validation (§4.5 step 1) — non-empty
`user_id`, `event_type` in the known enum, non-empty `topic`. -/
def validate (e : StudentEvent) : Bool :=
  decide (e.user_id ≠ "" ∧ e.event_type ∈ knownEventTypes ∧ e.topic ≠ "")

/-- The failure-score cutoff below which a quiz counts as a strong
struggle signal (the 0.6 threshold of §4.2 and `api.py` line 282). -/
def failureThreshold : ℚ := 3 / 5

/-- The topic family a topic belongs to, modelled as its leading
whitespace-separated word (so "JavaScript Async/Await" and "JavaScript
Promises" fall in the same family). -/
def topicFamily (t : String) : String := String.mk (t.toList.takeWhile (· ≠ ' '))

/-- Modelled from the spec: topics match or are closely related when they
are equal or share a topic family (§4.2 repeated-signal rule). -/
def relatedTopics (a b : String) : Bool :=
  a = b ∨ topicFamily a = topicFamily b

/-- Modelled from the spec: the reason component of an
`InterventionDecision` (§3). -/
inductive DecisionReason where
  | repeated_topic_struggle
  | struggle_count_threshold
  | single_signal_insufficient
  | cooldown_active
deriving DecidableEq

/-- Whether a quiz score is present and below the failure threshold. -/
def scoreBelowThreshold : Option ℚ → Bool
  | some s => decide (s < failureThreshold)
  | none => false

/-- Modelled from the spec: `InterventionPolicy.evaluate` (§4.2), a pure
decision over the event and the memory snapshot taken *before* the event
is appended. A `quiz_failure` scoring below `failureThreshold` triggers by
itself; a `help_request` triggers when the history already holds a signal
on a matching or closely related topic; nothing else triggers. The
recency window and cooldown are left unbounded/absent, as in the
reference behavior (§9 flags them as unsurfaced). -/
def evaluate (e : StudentEvent) (m : UserMemory) : Bool × DecisionReason :=
  if e.event_type = "quiz_failure" ∧ scoreBelowThreshold e.quiz_score then
    (true, .struggle_count_threshold)
  else if e.event_type = "help_request" ∧
      m.struggle_history.any (fun r => relatedTopics r.topic e.topic) then
    (true, .repeated_topic_struggle)
  else
    (false, .single_signal_insufficient)

/-- The action reported in a `Result` record (§4.5). -/
inductive Action where
  | intervention_created
  | intervention_failed
  | intervention_failed_unparseable
  | monitoring
deriving DecidableEq

/-- Modelled from the spec: the `Result` record of §4.5, with `response`
holding the raw generator text when one was produced. -/
structure PResult where
  action : Action
  user_message : Option String
  response : Option String
  artifact : Option Artifact
deriving DecidableEq

/-- The engine-level error for malformed input (§7 `ValidationError`). -/
inductive EngineError where
  | validationError
deriving DecidableEq

/-- Modelled from the spec: `InterventionEngine.process` (§4.5), the
engine owned by the missing `proactive_agent.py`. The generative-content
call is abstracted as `gen : String → Option String` (`none` = generator
failure). Invalid events fail with `ValidationError` and leave the store
untouched; valid events append their struggle record regardless of the
decision; a triggered intervention generates, parses, and on full success
records the intervention. -/
def processStudentEvent (gen : String → Option String) (st : MemoryStore)
    (e : StudentEvent) : Except EngineError PResult × MemoryStore :=
  if validate e then
    let m := getOrCreate st e.user_id
    let m1 := { m with struggle_history := m.struggle_history ++ [toRecord e] }
    if (evaluate e m).1 then
      match gen e.topic with
      | none =>
        (.ok { action := .intervention_failed,
               user_message := some "We could not build your lesson right now, but your progress is being tracked.",
               response := none, artifact := none },
         setMem st e.user_id m1)
      | some raw =>
        match parse raw with
        | .error _ =>
          (.ok { action := .intervention_failed_unparseable,
                 user_message := none, response := some raw, artifact := none },
           setMem st e.user_id m1)
        | .ok art =>
          (.ok { action := .intervention_created,
                 user_message := some "Noticed you were struggling — here is a short lesson that may help.",
                 response := some raw, artifact := some art },
           setMem st e.user_id
             { m1 with intervention_count := m1.intervention_count + 1,
                       last_intervention_topic := some e.topic,
                       last_intervention_at := some e.timestamp })
    else
      (.ok { action := .monitoring, user_message := none,
             response := none, artifact := none },
       setMem st e.user_id m1)
  else
    (.error .validationError, st)

/-- The store after one `process` call (the result record dropped). -/
def stepEvent (gen : String → Option String) (st : MemoryStore)
    (e : StudentEvent) : MemoryStore :=
  (processStudentEvent gen st e).2

/-- The store after a sequence of `process` calls in submission order. -/
def processAll (gen : String → Option String) (st : MemoryStore)
    (evts : List StudentEvent) : MemoryStore :=
  evts.foldl (stepEvent gen) st

/-! ## Service layer (`api.py`) -/

/-- The profile reported by `GET /users/\x7buser_id\x7d/profile`
(`UserProfileResponse` in `api.py`, the fields the claims concern). -/
structure UserProfileResponse where
  user_id : String
  total_events : Nat
  intervention_count : Nat
  struggle_topics : List String
deriving DecidableEq

/-- `get_user_profile` (`api.py` lines 196-224): look the user up in
`agent.user_memory`; absent users get a 404, modelled as `none`. -/
def get_user_profile (st : MemoryStore) (u : String) : Option UserProfileResponse :=
  match lookupMem st u with
  | none => none
  | some m =>
    some { user_id := u,
           total_events := m.struggle_history.length,
           intervention_count := m.intervention_count,
           struggle_topics := (m.struggle_history.map (·.topic)).dedup }

/-- `reset_user_profile` (`api.py` lines 241-247): when the user exists,
delete the entry and report success (`true`); otherwise report 404
(`false`) and leave the store unchanged. -/
def reset_user_profile (st : MemoryStore) (u : String) : Bool × MemoryStore :=
  if (lookupMem st u).isSome then (true, eraseMem st u) else (false, st)

/-- A quiz-completion webhook payload carrying the required fields
`user_id`, `quiz_topic` and `score` plus the optional extras
(`quiz_completed_webhook`, `api.py` lines 276-291). The Python float
score is modelled as a rational. -/
structure QuizWebhookPayload where
  user_id : String
  quiz_topic : String
  score : ℚ
  attempts : Option Nat
  time_spent : Option Nat
deriving DecidableEq

/-- The webhook acknowledgement `\x7b"status": ..., "will_process": ...\x7d`
returned by `quiz_completed_webhook` (`api.py` line 301). -/
structure QuizWebhookResponse where
  status : String
  will_process : Bool
deriving DecidableEq

/-- `quiz_completed_webhook` (`api.py` lines 269-301): when
`score < 0.6` build a `quiz_failure` event for the background engine
call (returned as `some`), otherwise dispatch nothing; the response
always acknowledges receipt and reports `will_process = score < 0.6`.
The dispatched event's timestamp is the `datetime.now()` of the
background task, passed here as `now`. -/
def quiz_completed_webhook (d : QuizWebhookPayload) (now : Nat) :
    QuizWebhookResponse × Option StudentEvent :=
  if d.score < failureThreshold then
    ({ status := "received", will_process := true },
     some { user_id := d.user_id, event_type := "quiz_failure",
            topic := d.quiz_topic, quiz_score := some d.score,
            timestamp := now })
  else
    ({ status := "received", will_process := false }, none)

/-- The webhook followed by its background processing: the store is
touched only through the dispatched event, if any. -/
def webhookAndProcess (gen : String → Option String) (st : MemoryStore)
    (d : QuizWebhookPayload) (now : Nat) : QuizWebhookResponse × MemoryStore :=
  match quiz_completed_webhook d now with
  | (resp, some e) => (resp, (processStudentEvent gen st e).2)
  | (resp, none) => (resp, st)

/-- The raw generator text of the parser-robustness scenario (§8). -/
def cssLessonText : String :=
  "Here is your lesson: \x7b\"title\":\"CSS Grid\",\"slides\":[\x7b\"title\":\"Intro\"\x7d]\x7d Enjoy!"

/-- The artifact that `cssLessonText` decodes to. -/
def cssArtifact : Artifact :=
  { title := "CSS Grid", slides := [{ title := "Intro", content := "" }],
    duration_minutes := defaultDuration }

/-! ## Helper lemmas -/

theorem lookupMem_setMem_self (st : MemoryStore) (u : String) (m : UserMemory) :
    lookupMem (setMem st u m) u = some m := by
  induction st with
  | nil => simp [setMem, lookupMem]
  | cons p rest ih =>
    obtain ⟨k, m0⟩ := p
    by_cases hk : k = u
    · simp [setMem, hk, lookupMem]
    · simp [setMem, hk, lookupMem, ih]

theorem lookupMem_eraseMem_self (st : MemoryStore) (u : String) :
    lookupMem (eraseMem st u) u = none := by
  induction st with
  | nil => simp [eraseMem, lookupMem]
  | cons p rest ih =>
    obtain ⟨k, m0⟩ := p
    by_cases hk : k = u
    · simp [eraseMem, hk, ih]
    · simp [eraseMem, hk, lookupMem, ih]

theorem firstIdxOf_isSome_of_mem {c : Char} {l : List Char} (h : c ∈ l) :
    (firstIdxOf c l).isSome := by
  induction l with
  | nil => cases h
  | cons x xs ih =>
    by_cases hx : x = c
    · simp [firstIdxOf, hx]
    · rcases List.mem_cons.mp h with h | h
      · exact absurd h.symm hx
      · simpa [firstIdxOf, hx, Option.isSome_map] using ih h

theorem firstIdxOf_eq_none_of_not_mem {c : Char} {l : List Char} (h : c ∉ l) :
    firstIdxOf c l = none := by
  induction l with
  | nil => rfl
  | cons x xs ih =>
    have hx : ¬x = c := fun he => h (he ▸ List.mem_cons_self x xs)
    have hxs : c ∉ xs := fun hm => h (List.mem_cons_of_mem x hm)
    simp [firstIdxOf, hx, ih hxs]

theorem decodeSlides_cons_ne_nil {x : JVal} {xs : List JVal} {sl : List Slide}
    (h : decodeSlides (x :: xs) = some sl) : sl ≠ [] := by
  unfold decodeSlides at h
  split at h
  · cases h; simp
  · cases h

theorem decodeArtifact_ok_shape {j : JVal} {a : Artifact}
    (h : decodeArtifact j = Except.ok a) : a.title ≠ "" ∧ a.slides ≠ [] := by
  unfold decodeArtifact at h
  split at h
  · split at h
    · rename_i t _
      split at h
      · cases h
      · rename_i ht
        split at h
        · split at h
          · rename_i hsl
            cases h
            exact ⟨ht, decodeSlides_cons_ne_nil hsl⟩
          · cases h
        · cases h
    · cases h
  · cases h

theorem getOrCreate_setMem_self (st : MemoryStore) (u : String) (m : UserMemory) :
    getOrCreate (setMem st u m) u = m := by
  simp [getOrCreate, lookupMem_setMem_self]

theorem stepEvent_history (gen : String → Option String) (st : MemoryStore)
    (e : StudentEvent) (hv : validate e = true) :
    memHistory (stepEvent gen st e) e.user_id
      = memHistory st e.user_id ++ [toRecord e] := by
  unfold stepEvent processStudentEvent
  rw [if_pos hv]
  dsimp only
  split
  · split
    · simp [memHistory, getOrCreate_setMem_self]
    · split
      · simp [memHistory, getOrCreate_setMem_self]
      · simp [memHistory, getOrCreate_setMem_self]
  · simp [memHistory, getOrCreate_setMem_self]

theorem process_monitoring_eq (gen : String → Option String) (st : MemoryStore)
    (e : StudentEvent) (hv : validate e = true)
    (hne : (evaluate e (getOrCreate st e.user_id)).1 = false) :
    processStudentEvent gen st e
      = (Except.ok { action := .monitoring, user_message := none,
                     response := none, artifact := none },
         setMem st e.user_id
           { getOrCreate st e.user_id with
             struggle_history :=
               (getOrCreate st e.user_id).struggle_history ++ [toRecord e] }) := by
  unfold processStudentEvent
  rw [if_pos hv]
  dsimp only
  rw [if_neg (by simp [hne])]

theorem process_created_eq (gen : String → Option String) (st : MemoryStore)
    (e : StudentEvent) (raw : String) (art : Artifact) (hv : validate e = true)
    (htrig : (evaluate e (getOrCreate st e.user_id)).1 = true)
    (hgen : gen e.topic = some raw) (hparse : parse raw = Except.ok art) :
    ∃ r, (processStudentEvent gen st e).1 = Except.ok r ∧
      r.action = Action.intervention_created ∧
      r.artifact = some art ∧ r.response = some raw := by
  unfold processStudentEvent
  rw [if_pos hv]
  dsimp only
  rw [if_pos htrig, hgen]
  dsimp only
  rw [hparse]
  exact ⟨_, rfl, rfl, rfl, rfl⟩

theorem process_genfail_eq (gen : String → Option String) (st : MemoryStore)
    (e : StudentEvent) (hv : validate e = true)
    (htrig : (evaluate e (getOrCreate st e.user_id)).1 = true)
    (hgen : gen e.topic = none) :
    ∃ r, (processStudentEvent gen st e).1 = Except.ok r ∧
      r.action = Action.intervention_failed := by
  unfold processStudentEvent
  rw [if_pos hv]
  dsimp only
  rw [if_pos htrig, hgen]
  exact ⟨_, rfl, rfl⟩

theorem process_unparseable_eq (gen : String → Option String) (st : MemoryStore)
    (e : StudentEvent) (raw : String) (err : ArtifactParseError)
    (hv : validate e = true)
    (htrig : (evaluate e (getOrCreate st e.user_id)).1 = true)
    (hgen : gen e.topic = some raw) (hparse : parse raw = Except.error err) :
    ∃ r, (processStudentEvent gen st e).1 = Except.ok r ∧
      r.action = Action.intervention_failed_unparseable ∧
      r.response = some raw := by
  unfold processStudentEvent
  rw [if_pos hv]
  dsimp only
  rw [if_pos htrig, hgen]
  dsimp only
  rw [hparse]
  exact ⟨_, rfl, rfl, rfl⟩

/-! ## Claims -/

/-- C1: for every fresh user (no memory yet, hence an empty struggle
history), a single `quiz_failure` event whose metadata score is below the
0.6 failure threshold yields `action = intervention_created` on that very
first call (given the generator answers with a parseable artifact, the
normal-operation premise of the scenario). -/
theorem C1_fresh_quiz_failure_triggers
    (gen : String → Option String) (st : MemoryStore) (e : StudentEvent)
    (q : ℚ) (raw : String) (art : Artifact)
    (_hfresh : lookupMem st e.user_id = none)
    (huid : e.user_id ≠ "") (htopic : e.topic ≠ "")
    (htype : e.event_type = "quiz_failure")
    (hscore : e.quiz_score = some q) (hq : q < failureThreshold)
    (hgen : gen e.topic = some raw) (hparse : parse raw = Except.ok art) :
    ∃ r, (processStudentEvent gen st e).1 = Except.ok r ∧
      r.action = Action.intervention_created := by
  have hv : validate e = true := by
    simp [validate, htype, knownEventTypes, huid, htopic]
  have htrig : (evaluate e (getOrCreate st e.user_id)).1 = true := by
    simp [evaluate, htype, scoreBelowThreshold, hscore, hq]
  obtain ⟨r, h1, h2, _⟩ := process_created_eq gen st e raw art hv htrig hgen hparse
  exact ⟨r, h1, h2⟩

/-- C1 witness: a fresh user, one `quiz_failure` with score 0.4, a
generator returning the documented lesson text. -/
theorem C1_fresh_quiz_failure_triggers_witness :
    ∃ r, (processStudentEvent (fun _ => some cssLessonText) []
            ⟨"priya", "quiz_failure", "CSS Flexbox", some (2/5), 0⟩).1 = Except.ok r ∧
      r.action = Action.intervention_created :=
  C1_fresh_quiz_failure_triggers (fun _ => some cssLessonText) []
    ⟨"priya", "quiz_failure", "CSS Flexbox", some (2/5), 0⟩
    (2/5) cssLessonText cssArtifact rfl (by decide) (by decide) rfl rfl
    (by norm_num [failureThreshold]) rfl (by decide)

/-- C2: on a fresh user a single `help_request` yields
`action = monitoring`, and a second `help_request` for the same user on a
matching or closely related topic yields `action = intervention_created`
(given the generator answers with a parseable artifact). -/
theorem C2_repeated_help_request_triggers
    (gen : String → Option String) (st : MemoryStore)
    (u t1 t2 : String) (ts1 ts2 : Nat) (raw : String) (art : Artifact)
    (hfresh : lookupMem st u = none)
    (hu : u ≠ "") (ht1 : t1 ≠ "") (ht2 : t2 ≠ "")
    (hrel : relatedTopics t1 t2 = true)
    (hgen : gen t2 = some raw) (hparse : parse raw = Except.ok art) :
    ∃ r1, (processStudentEvent gen st ⟨u, "help_request", t1, none, ts1⟩).1 = Except.ok r1 ∧
      r1.action = Action.monitoring ∧
      ∃ r2, (processStudentEvent gen
              (processStudentEvent gen st ⟨u, "help_request", t1, none, ts1⟩).2
              ⟨u, "help_request", t2, none, ts2⟩).1 = Except.ok r2 ∧
        r2.action = Action.intervention_created := by
  have hv1 : validate ⟨u, "help_request", t1, none, ts1⟩ = true := by
    simp [validate, knownEventTypes, hu, ht1]
  have hv2 : validate ⟨u, "help_request", t2, none, ts2⟩ = true := by
    simp [validate, knownEventTypes, hu, ht2]
  have hm : getOrCreate st u = emptyMemory := by
    simp [getOrCreate, hfresh]
  have hne1 : (evaluate ⟨u, "help_request", t1, none, ts1⟩
      (getOrCreate st (⟨u, "help_request", t1, none, ts1⟩ : StudentEvent).user_id)).1
        = false := by
    simp [evaluate, hm, emptyMemory, scoreBelowThreshold]
  have hfirst := process_monitoring_eq gen st ⟨u, "help_request", t1, none, ts1⟩ hv1 hne1
  refine ⟨_, by rw [hfirst], rfl, ?_⟩
  have hst1 : (processStudentEvent gen st ⟨u, "help_request", t1, none, ts1⟩).2
      = setMem st u
          { emptyMemory with
            struggle_history :=
              emptyMemory.struggle_history
                ++ [toRecord ⟨u, "help_request", t1, none, ts1⟩] } := by
    rw [hfirst]
    dsimp only
    rw [hm]
  have hm1 : getOrCreate (processStudentEvent gen st ⟨u, "help_request", t1, none, ts1⟩).2 u
      = { emptyMemory with
          struggle_history := [toRecord ⟨u, "help_request", t1, none, ts1⟩] } := by
    rw [hst1]
    exact getOrCreate_setMem_self ..
  have htrig2 : (evaluate ⟨u, "help_request", t2, none, ts2⟩
      (getOrCreate (processStudentEvent gen st ⟨u, "help_request", t1, none, ts1⟩).2
        (⟨u, "help_request", t2, none, ts2⟩ : StudentEvent).user_id)).1 = true := by
    have : (⟨u, "help_request", t2, none, ts2⟩ : StudentEvent).user_id = u := rfl
    rw [this, hm1]
    simp [evaluate, toRecord, emptyMemory, hrel]
  obtain ⟨r2, h1, h2, _⟩ := process_created_eq gen
    (processStudentEvent gen st ⟨u, "help_request", t1, none, ts1⟩).2
    ⟨u, "help_request", t2, none, ts2⟩ raw art hv2 htrig2 hgen hparse
  exact ⟨r2, h1, h2⟩

/-- C2 witness: fresh user "alex", help requests on "JavaScript
Async/Await" then "JavaScript Promises". -/
theorem C2_repeated_help_request_triggers_witness :
    ∃ r1, (processStudentEvent (fun _ => some cssLessonText) []
            ⟨"alex", "help_request", "JavaScript Async/Await", none, 0⟩).1 = Except.ok r1 ∧
      r1.action = Action.monitoring ∧
      ∃ r2, (processStudentEvent (fun _ => some cssLessonText)
              (processStudentEvent (fun _ => some cssLessonText) []
                ⟨"alex", "help_request", "JavaScript Async/Await", none, 0⟩).2
              ⟨"alex", "help_request", "JavaScript Promises", none, 1⟩).1 = Except.ok r2 ∧
        r2.action = Action.intervention_created :=
  C2_repeated_help_request_triggers (fun _ => some cssLessonText) []
    "alex" "JavaScript Async/Await" "JavaScript Promises" 0 1
    cssLessonText cssArtifact rfl (by decide) (by decide) (by decide)
    (by decide) rfl (by decide)

/-- C3: for every raw text containing at least one opening brace and one
closing brace, `parse` extracts the substring from the first opening
brace to the last closing brace and decodes it as the structured payload;
on the documented example it returns an artifact titled "CSS Grid" with
exactly one slide. -/
theorem C3_brace_extraction :
    (∀ s : String, '{' ∈ s.toList → '}' ∈ s.toList →
        ∃ a b, firstIdxOf '{' s.toList = some a ∧
          lastIdxOf '}' s.toList = some b ∧
          parse s = decodePayload (String.mk ((s.toList.drop a).take (b + 1 - a))))
      ∧ (parse cssLessonText).map Artifact.title = Except.ok "CSS Grid"
      ∧ (parse cssLessonText).map (fun a => a.slides.length) = Except.ok 1 := by
  refine ⟨?_, by decide, by decide⟩
  intro s h1 h2
  obtain ⟨a, ha⟩ := Option.isSome_iff_exists.mp (firstIdxOf_isSome_of_mem h1)
  have h2r : '}' ∈ s.toList.reverse := List.mem_reverse.mpr h2
  obtain ⟨i, hi⟩ := Option.isSome_iff_exists.mp (firstIdxOf_isSome_of_mem h2r)
  refine ⟨a, s.toList.length - 1 - i, ha, ?_, ?_⟩
  · unfold lastIdxOf
    rw [hi]
  · unfold parse extractPayload lastIdxOf
    rw [ha, hi]

/-- C3 witness: the universal part applied to a concrete braced text. -/
theorem C3_brace_extraction_witness :
    ∃ a b, firstIdxOf '{' (String.toList "see \x7b\"k\":1\x7d end") = some a ∧
      lastIdxOf '}' (String.toList "see \x7b\"k\":1\x7d end") = some b ∧
      parse "see \x7b\"k\":1\x7d end"
        = decodePayload
            (String.mk (((String.toList "see \x7b\"k\":1\x7d end").drop a).take (b + 1 - a))) :=
  C3_brace_extraction.1 "see \x7b\"k\":1\x7d end" (by decide) (by decide)

/-- C4: `parse` fails with an `ArtifactParseError` when no payload can be
located (in particular on brace-free text) or when the payload lacks the
required shape; every successful parse has a non-empty title and a
non-empty slide list, and a payload without `duration_minutes` succeeds
with the default duration rather than failing. -/
theorem C4_parse_error_handling :
    (∀ s : String, '{' ∉ s.toList ∨ '}' ∉ s.toList →
        parse s = Except.error ArtifactParseError.noPayload)
      ∧ (∀ (s : String) (a : Artifact), parse s = Except.ok a →
          a.title ≠ "" ∧ a.slides ≠ [])
      ∧ parse "\x7b\"slides\":[\x7b\"title\":\"A\"\x7d]\x7d"
          = Except.error ArtifactParseError.missingTitle
      ∧ parse "\x7b\"title\":\"\",\"slides\":[\x7b\"title\":\"A\"\x7d]\x7d"
          = Except.error ArtifactParseError.missingTitle
      ∧ parse "\x7b\"title\":\"X\",\"slides\":[]\x7d"
          = Except.error ArtifactParseError.emptySlides
      ∧ parse "\x7b\"title\":\"X\",\"slides\":[\x7b\"title\":\"A\"\x7d]\x7d"
          = Except.ok { title := "X", slides := [{ title := "A", content := "" }],
                        duration_minutes := defaultDuration } := by
  refine ⟨?_, ?_, by decide, by decide, by decide, by decide⟩
  · intro s h
    have hex : extractPayload s = none := by
      unfold extractPayload
      rcases h with h | h
      · rw [firstIdxOf_eq_none_of_not_mem h]
      · have hr : firstIdxOf '}' s.toList.reverse = none :=
          firstIdxOf_eq_none_of_not_mem (fun hm => h (List.mem_reverse.mp hm))
        have hlast : lastIdxOf '}' s.toList = none := by
          unfold lastIdxOf
          rw [hr]
        rw [hlast]
        cases firstIdxOf '{' s.toList <;> rfl
    unfold parse
    rw [hex]
  · intro s a h
    unfold parse at h
    split at h
    · unfold decodePayload at h
      split at h
      · exact decodeArtifact_ok_shape h
      · cases h
    · cases h

/-- C4 witness: the no-payload case at a brace-free text, and the shape
soundness applied to the documented example. -/
theorem C4_parse_error_handling_witness :
    parse "there is no structured payload here"
        = Except.error ArtifactParseError.noPayload ∧
      (cssArtifact.title ≠ "" ∧ cssArtifact.slides ≠ []) :=
  ⟨C4_parse_error_handling.1 "there is no structured payload here" (Or.inl (by decide)),
   C4_parse_error_handling.2.1 cssLessonText cssArtifact (by decide)⟩

/-- C5: for every triggered intervention whose generator output cannot be
parsed into an artifact, `process` reports
`action = intervention_failed_unparseable` carrying the raw generator
text, as a well-formed result rather than an exception and never as
`intervention_created`. -/
theorem C5_unparseable_reported
    (gen : String → Option String) (st : MemoryStore) (e : StudentEvent)
    (raw : String) (err : ArtifactParseError)
    (hv : validate e = true)
    (htrig : (evaluate e (getOrCreate st e.user_id)).1 = true)
    (hgen : gen e.topic = some raw)
    (hparse : parse raw = Except.error err) :
    ∃ r, (processStudentEvent gen st e).1 = Except.ok r ∧
      r.action = Action.intervention_failed_unparseable ∧
      r.response = some raw := by
  exact process_unparseable_eq gen st e raw err hv htrig hgen hparse

/-- C5 witness: a triggering quiz failure whose generator answers with
unparseable prose. -/
theorem C5_unparseable_reported_witness :
    ∃ r, (processStudentEvent (fun _ => some "sorry, I cannot produce a lesson") []
            ⟨"priya", "quiz_failure", "CSS Flexbox", some (2/5), 0⟩).1 = Except.ok r ∧
      r.action = Action.intervention_failed_unparseable ∧
      r.response = some "sorry, I cannot produce a lesson" :=
  C5_unparseable_reported (fun _ => some "sorry, I cannot produce a lesson") []
    ⟨"priya", "quiz_failure", "CSS Flexbox", some (2/5), 0⟩
    "sorry, I cannot produce a lesson" ArtifactParseError.noPayload
    (by decide)
    (by simp [evaluate, getOrCreate, emptyMemory, scoreBelowThreshold, failureThreshold]
        norm_num)
    rfl (by decide)

/-- C6: when the policy triggers but the generative call fails, the
triggering struggle event is still appended to the user's history and the
result is the `intervention_failed` variant, not an unhandled fault. -/
theorem C6_generator_failure_isolated
    (gen : String → Option String) (st : MemoryStore) (e : StudentEvent)
    (hv : validate e = true)
    (htrig : (evaluate e (getOrCreate st e.user_id)).1 = true)
    (hgen : gen e.topic = none) :
    (∃ r, (processStudentEvent gen st e).1 = Except.ok r ∧
        r.action = Action.intervention_failed) ∧
      memHistory (processStudentEvent gen st e).2 e.user_id
        = memHistory st e.user_id ++ [toRecord e] :=
  ⟨process_genfail_eq gen st e hv htrig hgen, stepEvent_history gen st e hv⟩

/-- C6 witness: a triggering quiz failure with a failing generator; the
struggle record lands in the history and the action is the failure
variant. -/
theorem C6_generator_failure_isolated_witness :
    (∃ r, (processStudentEvent (fun _ => none) []
            ⟨"priya", "quiz_failure", "CSS Flexbox", some (2/5), 0⟩).1 = Except.ok r ∧
        r.action = Action.intervention_failed) ∧
      memHistory (processStudentEvent (fun _ => none) []
          ⟨"priya", "quiz_failure", "CSS Flexbox", some (2/5), 0⟩).2 "priya"
        = memHistory ([] : MemoryStore) "priya"
            ++ [toRecord ⟨"priya", "quiz_failure", "CSS Flexbox", some (2/5), 0⟩] :=
  C6_generator_failure_isolated (fun _ => none) []
    ⟨"priya", "quiz_failure", "CSS Flexbox", some (2/5), 0⟩
    (by decide)
    (by simp [evaluate, getOrCreate, emptyMemory, scoreBelowThreshold, failureThreshold]
        norm_num)
    rfl

/-- C7: for every user and every sequence of valid processed events for
that user, the struggle history afterwards is the prior history extended
by exactly the records of those events in submission order — so from a
fresh store its length is the number of events, and no record is ever
removed or modified. -/
theorem C7_append_only_history
    (gen : String → Option String) (u : String) :
    ∀ (evts : List StudentEvent) (st : MemoryStore),
      (∀ e ∈ evts, e.user_id = u ∧ validate e = true) →
      memHistory (processAll gen st evts) u
        = memHistory st u ++ evts.map toRecord := by
  intro evts
  induction evts with
  | nil =>
    intro st _
    simp [processAll]
  | cons e rest ih =>
    intro st h
    obtain ⟨he, hv⟩ := h e (List.mem_cons_self e rest)
    have hstep := stepEvent_history gen st e hv
    rw [he] at hstep
    have h2 : processAll gen st (e :: rest) = processAll gen (stepEvent gen st e) rest := rfl
    rw [h2, ih (stepEvent gen st e) (fun e' h' => h e' (List.mem_cons_of_mem e h')), hstep]
    simp

/-- C7 witness: two help requests for "alex" from the empty store produce
a two-record history in submission order. -/
theorem C7_append_only_history_witness :
    memHistory (processAll (fun _ => none) []
        [⟨"alex", "help_request", "JavaScript Async/Await", none, 0⟩,
         ⟨"alex", "help_request", "JavaScript Promises", none, 1⟩]) "alex"
      = memHistory ([] : MemoryStore) "alex"
          ++ [toRecord ⟨"alex", "help_request", "JavaScript Async/Await", none, 0⟩,
              toRecord ⟨"alex", "help_request", "JavaScript Promises", none, 1⟩] :=
  C7_append_only_history (fun _ => none) "alex"
    [⟨"alex", "help_request", "JavaScript Async/Await", none, 0⟩,
     ⟨"alex", "help_request", "JavaScript Promises", none, 1⟩]
    [] (by decide)

/-- C8: an event with an empty `user_id`, an `event_type` outside the
known enum, or an empty `topic` fails with `ValidationError` and the
memory store is left exactly as it was. -/
theorem C8_invalid_event_rejected
    (gen : String → Option String) (st : MemoryStore) (e : StudentEvent)
    (h : e.user_id = "" ∨ e.event_type ∉ knownEventTypes ∨ e.topic = "") :
    processStudentEvent gen st e = (Except.error EngineError.validationError, st) := by
  have hv : ¬(validate e = true) := by
    simp only [validate, decide_eq_true_eq]
    rcases h with h | h | h
    · exact fun hc => hc.1 h
    · exact fun hc => h hc.2.1
    · exact fun hc => hc.2.2 h
  unfold processStudentEvent
  rw [if_neg hv]

/-- C8 witness: an unknown event type is rejected without touching a
store that already holds a user. -/
theorem C8_invalid_event_rejected_witness :
    processStudentEvent (fun _ => none) [("priya", emptyMemory)]
        ⟨"priya", "quiz_passed", "CSS Flexbox", none, 0⟩
      = (Except.error EngineError.validationError, [("priya", emptyMemory)]) :=
  C8_invalid_event_rejected (fun _ => none) [("priya", emptyMemory)]
    ⟨"priya", "quiz_passed", "CSS Flexbox", none, 0⟩
    (Or.inr (Or.inl (by decide)))

/-- C9: resetting an existing user drops all memory for that user, so a
subsequent profile read reports not-found and a second reset on the
already-reset user reports not-found against the unchanged store rather
than succeeding. -/
theorem C9_reset_idempotent_notfound
    (st : MemoryStore) (u : String) (h : (lookupMem st u).isSome = true) :
    (reset_user_profile st u).1 = true ∧
      get_user_profile (reset_user_profile st u).2 u = none ∧
      reset_user_profile (reset_user_profile st u).2 u
        = (false, (reset_user_profile st u).2) := by
  have hsnd : (reset_user_profile st u).2 = eraseMem st u := by
    unfold reset_user_profile
    rw [if_pos h]
  have hfst : (reset_user_profile st u).1 = true := by
    unfold reset_user_profile
    rw [if_pos h]
  have hnone := lookupMem_eraseMem_self st u
  refine ⟨hfst, ?_, ?_⟩
  · rw [hsnd]
    unfold get_user_profile
    rw [hnone]
  · rw [hsnd]
    unfold reset_user_profile
    rw [hnone]
    simp

/-- C9 witness: reset of a present user in a one-user store. -/
theorem C9_reset_idempotent_notfound_witness :
    (reset_user_profile [("priya", emptyMemory)] "priya").1 = true ∧
      get_user_profile (reset_user_profile [("priya", emptyMemory)] "priya").2 "priya" = none ∧
      reset_user_profile (reset_user_profile [("priya", emptyMemory)] "priya").2 "priya"
        = (false, (reset_user_profile [("priya", emptyMemory)] "priya").2) :=
  C9_reset_idempotent_notfound [("priya", emptyMemory)] "priya" (by decide)

/-- C10: a quiz-completion webhook payload dispatches a `quiz_failure`
event to the engine exactly when `score < 0.6`; the dispatched event
carries the payload's user, topic and score; and when `score ≥ 0.6` the
acknowledgement reports `will_process = false` and the memory store is
untouched. -/
theorem C10_webhook_threshold (d : QuizWebhookPayload) (now : Nat) :
    ((quiz_completed_webhook d now).2.isSome ↔ d.score < failureThreshold)
      ∧ (∀ e, (quiz_completed_webhook d now).2 = some e →
          e.event_type = "quiz_failure" ∧ e.user_id = d.user_id ∧
          e.topic = d.quiz_topic ∧ e.quiz_score = some d.score)
      ∧ (failureThreshold ≤ d.score →
          (quiz_completed_webhook d now).1.will_process = false ∧
          ∀ (gen : String → Option String) (st : MemoryStore),
            webhookAndProcess gen st d now = ((quiz_completed_webhook d now).1, st)) := by
  by_cases hlt : d.score < failureThreshold
  · refine ⟨by simp [quiz_completed_webhook, hlt], ?_, ?_⟩
    · intro e he
      have h2 : (quiz_completed_webhook d now).2
          = some ⟨d.user_id, "quiz_failure", d.quiz_topic, some d.score, now⟩ := by
        simp [quiz_completed_webhook, hlt]
      rw [h2] at he
      obtain rfl := (Option.some_inj.mp he).symm
      exact ⟨rfl, rfl, rfl, rfl⟩
    · intro hge
      exact absurd hlt (not_lt.mpr hge)
  · refine ⟨by simp [quiz_completed_webhook, hlt], ?_, ?_⟩
    · intro e he
      rw [show (quiz_completed_webhook d now).2 = none by
        simp [quiz_completed_webhook, hlt]] at he
      cases he
    · intro _
      refine ⟨by simp [quiz_completed_webhook, hlt], fun gen st => ?_⟩
      simp [webhookAndProcess, quiz_completed_webhook, hlt]

/-- C10 witness: a passing score of 0.7 dispatches nothing, acknowledges
with `will_process = false`, and leaves an existing store unchanged. -/
theorem C10_webhook_threshold_witness :
    (quiz_completed_webhook ⟨"sam", "Python Functions", 7/10, none, none⟩ 0).1.will_process
        = false ∧
      webhookAndProcess (fun _ => none) [("priya", emptyMemory)]
          ⟨"sam", "Python Functions", 7/10, none, none⟩ 0
        = ((quiz_completed_webhook ⟨"sam", "Python Functions", 7/10, none, none⟩ 0).1,
           [("priya", emptyMemory)]) :=
  ⟨((C10_webhook_threshold ⟨"sam", "Python Functions", 7/10, none, none⟩ 0).2.2
      (by norm_num [failureThreshold])).1,
   ((C10_webhook_threshold ⟨"sam", "Python Functions", 7/10, none, none⟩ 0).2.2
      (by norm_num [failureThreshold])).2 (fun _ => none) [("priya", emptyMemory)]⟩

end VibeAgent
